import Mathlib

/-!
# Verification of the Pocket48 client (`src/aiopocket/client.py`)

A shallow embedding of the `Client` class of `aiopocket/client.py` and proofs
about its authenticated-request pipeline: the `pa` signature computation, the
retrying dispatcher (`__apost`, under tenacity semantics), the blocking login
path (`user_login` / `__rpost`, under `retrying`-library semantics), the lazy
connector/session lifecycle, the admission semaphore, and constructor
behaviour.

Machine integers are modelled as `Nat` with explicit reduction modulo `2^32`
where overflow matters (MD5).  Fallible Python code is modelled with `Except`.
Network and filesystem effects are modelled by explicit outcome scripts passed
as arguments.
-/

set_option maxRecDepth 100000

namespace Pocket

/-! ## Bytes, MD5 and base64

`client.py` calls `hashlib.md5(...).hexdigest()` and `base64.b64encode` on
UTF-8 encoded strings.  These external library functions are embedded
concretely: UTF-8 encoding of a `Char`, the full MD5 algorithm over byte
lists (32-bit words as `Nat` mod `2^32`), lowercase hex digest, and RFC 4648
base64 with `=` padding. -/

/-- UTF-8 encoding of a single character, as a list of byte values. -/
def utf8c (c : Char) : List Nat :=
  let n := c.toNat
  if n < 128 then [n]
  else if n < 2048 then [192 + n / 64, 128 + n % 64]
  else if n < 65536 then [224 + n / 4096, 128 + (n / 64) % 64, 128 + n % 64]
  else [240 + n / 262144, 128 + (n / 4096) % 64, 128 + (n / 64) % 64, 128 + n % 64]

/-- UTF-8 bytes of a string (Python's `str.encode()`). -/
def strBytes (s : String) : List Nat :=
  (s.data.map utf8c).flatten

/-- The word modulus for MD5 arithmetic, `2^32`. -/
def w32 : Nat := 4294967296

/-- Bitwise complement within 32 bits. -/
def wnot (x : Nat) : Nat := 4294967295 - x % w32

/-- Left-rotation of a 32-bit word by `c` places. -/
def rotl32 (x c : Nat) : Nat :=
  ((x % w32) * 2 ^ c + (x % w32) / 2 ^ (32 - c)) % w32

/-- The 64 MD5 sine-derived constants `K[i] = floor(|sin(i+1)| * 2^32)`. -/
def md5K : List Nat := [
  0xd76aa478, 0xe8c7b756, 0x242070db, 0xc1bdceee,
  0xf57c0faf, 0x4787c62a, 0xa8304613, 0xfd469501,
  0x698098d8, 0x8b44f7af, 0xffff5bb1, 0x895cd7be,
  0x6b901122, 0xfd987193, 0xa679438e, 0x49b40821,
  0xf61e2562, 0xc040b340, 0x265e5a51, 0xe9b6c7aa,
  0xd62f105d, 0x02441453, 0xd8a1e681, 0xe7d3fbc8,
  0x21e1cde6, 0xc33707d6, 0xf4d50d87, 0x455a14ed,
  0xa9e3e905, 0xfcefa3f8, 0x676f02d9, 0x8d2a4c8a,
  0xfffa3942, 0x8771f681, 0x6d9d6122, 0xfde5380c,
  0xa4beea44, 0x4bdecfa9, 0xf6bb4b60, 0xbebfbc70,
  0x289b7ec6, 0xeaa127fa, 0xd4ef3085, 0x04881d05,
  0xd9d4d039, 0xe6db99e5, 0x1fa27cf8, 0xc4ac5665,
  0xf4292244, 0x432aff97, 0xab9423a7, 0xfc93a039,
  0x655b59c3, 0x8f0ccc92, 0xffeff47d, 0x85845dd1,
  0x6fa87e4f, 0xfe2ce6e0, 0xa3014314, 0x4e0811a1,
  0xf7537e82, 0xbd3af235, 0x2ad7d2bb, 0xeb86d391]

/-- The MD5 per-round left-rotation amounts. -/
def md5S : List Nat := [
  7, 12, 17, 22, 7, 12, 17, 22, 7, 12, 17, 22, 7, 12, 17, 22,
  5, 9, 14, 20, 5, 9, 14, 20, 5, 9, 14, 20, 5, 9, 14, 20,
  4, 11, 16, 23, 4, 11, 16, 23, 4, 11, 16, 23, 4, 11, 16, 23,
  6, 10, 15, 21, 6, 10, 15, 21, 6, 10, 15, 21, 6, 10, 15, 21]

/-- Little-endian byte decomposition of `n` into `count` bytes. -/
def leBytes (n : Nat) : Nat → List Nat
  | 0 => []
  | k + 1 => n % 256 :: leBytes (n / 256) k

/-- MD5 padding: append `0x80`, zero bytes to 56 mod 64, then the bit length
as 8 little-endian bytes. -/
def md5pad (msg : List Nat) : List Nat :=
  let len := msg.length
  let zeros := (56 + 64 - (len + 1) % 64) % 64
  msg ++ [128] ++ List.replicate zeros 0 ++ leBytes (8 * len % 2 ^ 64) 8

/-- Split a byte list into `k` chunks of 64 bytes. -/
def chunks64 : Nat → List Nat → List (List Nat)
  | 0, _ => []
  | k + 1, l => l.take 64 :: chunks64 k (l.drop 64)

/-- The `j`-th little-endian 32-bit word of a 64-byte chunk. -/
def word32At (chunk : List Nat) (j : Nat) : Nat :=
  chunk.getD (4 * j) 0 + 256 * chunk.getD (4 * j + 1) 0 +
    65536 * chunk.getD (4 * j + 2) 0 + 16777216 * chunk.getD (4 * j + 3) 0

/-- One MD5 round (round index `i`, message words `M`). -/
def md5round (M : Nat → Nat) (st : Nat × Nat × Nat × Nat) (i : Nat) :
    Nat × Nat × Nat × Nat :=
  let (a, b, c, d) := st
  let fg : Nat × Nat :=
    if i < 16 then ((b &&& c) ||| (wnot b &&& d), i)
    else if i < 32 then ((d &&& b) ||| (wnot d &&& c), (5 * i + 1) % 16)
    else if i < 48 then (b ^^^ c ^^^ d, (3 * i + 5) % 16)
    else (c ^^^ (b ||| wnot d), (7 * i) % 16)
  let f := (fg.1 + a + md5K.getD i 0 + M fg.2) % w32
  (d, (b + rotl32 f (md5S.getD i 0)) % w32, b, c)

/-- Process one 64-byte chunk, updating the running MD5 state. -/
def md5chunkStep (st : Nat × Nat × Nat × Nat) (chunk : List Nat) :
    Nat × Nat × Nat × Nat :=
  let (a0, b0, c0, d0) := st
  let r := (List.range 64).foldl (md5round (word32At chunk)) st
  ((a0 + r.1) % w32, (b0 + r.2.1) % w32, (c0 + r.2.2.1) % w32,
    (d0 + r.2.2.2) % w32)

/-- MD5 digest of a byte list, as the 16 digest bytes. -/
def md5bytes (msg : List Nat) : List Nat :=
  let p := md5pad msg
  let st := (chunks64 (p.length / 64) p).foldl md5chunkStep
    (0x67452301, 0xefcdab89, 0x98badcfe, 0x10325476)
  leBytes st.1 4 ++ leBytes st.2.1 4 ++ leBytes st.2.2.1 4 ++ leBytes st.2.2.2 4

/-- Lowercase hexadecimal digit. -/
def hexDigit (n : Nat) : Char :=
  if n < 10 then Char.ofNat (48 + n) else Char.ofNat (87 + n)

/-- Lowercase hex rendering of a byte. -/
def byteHex (b : Nat) : List Char := [hexDigit (b / 16), hexDigit (b % 16)]

/-- Python's `hashlib.md5(s.encode()).hexdigest()`: lowercase hex MD5 digest. -/
def md5hex (s : String) : String :=
  String.mk ((md5bytes (strBytes s)).map byteHex).flatten

/-- Base64 alphabet character for a 6-bit value. -/
def b64char (n : Nat) : Char :=
  if n < 26 then Char.ofNat (65 + n)
  else if n < 52 then Char.ofNat (97 + n - 26)
  else if n < 62 then Char.ofNat (48 + n - 52)
  else if n = 62 then '+' else '/'

/-- RFC 4648 base64 encoding of a byte list, with `=` padding. -/
def b64enc : List Nat → List Char
  | [] => []
  | [a] => [b64char (a / 4), b64char (a % 4 * 16), '=', '=']
  | [a, b] => [b64char (a / 4), b64char (a % 4 * 16 + b / 16),
      b64char (b % 16 * 4), '=']
  | a :: b :: c :: rest =>
      b64char (a / 4) :: b64char (a % 4 * 16 + b / 16) ::
        b64char (b % 16 * 4 + c / 64) :: b64char (c % 64) :: b64enc rest

/-- Python's `base64.b64encode(s.encode()).decode()`. -/
def b64encode (s : String) : String := String.mk (b64enc (strBytes s))

/-! ## The `pa` signature (`Client.pa` property, client.py lines 97-108) -/

/-- Embedding of the `pa` property of `Client`: with `_NOW_TIME` the current
millisecond timestamp rendered in decimal, `_UUID` the session identifier and
the `PostKey`/`PostKeyVersion` config values, computes
`b64encode((_NOW_TIME + ',' + _UUID + ',' + _MD5 + ',' + _PostKeyVersion))`
where `_MD5 = md5((_NOW_TIME + _UUID + _PostKey)).hexdigest()`.  The impure
`time()` call is made an explicit `nowMs` argument. -/
def pa (nowMs : Nat) (uuid PostKey PostKeyVersion : String) : String :=
  let NOW_TIME := toString nowMs
  let MD5 := md5hex (NOW_TIME ++ uuid ++ PostKey)
  b64encode (NOW_TIME ++ "," ++ uuid ++ "," ++ MD5 ++ "," ++ PostKeyVersion)

/-- The signature formula as the spec states it (§4.2): written from the
spec's words, for comparison with the source-derived `pa`. -/
def paSpecFormula (nowMs : Nat) (uuid PostKey PostKeyVersion : String) :
    String :=
  b64encode (toString nowMs ++ "," ++ uuid ++ "," ++
    md5hex (toString nowMs ++ uuid ++ PostKey) ++ "," ++ PostKeyVersion)

/-! ## JSON values and the error taxonomy -/

/-- JSON values as decoded by `resp.json()` / `requests.Response.json()`. -/
inductive JVal where
  | nul
  | str (s : String)
  | num (n : Int)
  | obj (fields : List (String × JVal))
deriving Repr

/-- A decoded top-level JSON response mapping. -/
abbrev Jobj := List (String × JVal)

/-- The failure conditions of the client, mirroring §7's taxonomy on the
exceptions the Python code actually raises. -/
inductive PErr where
  /-- aiohttp/requests connection or timeout failure. -/
  | transport (msg : String)
  /-- JSON decode failure from `resp.json()`. -/
  | decode (msg : String)
  /-- Python `KeyError` from subscripting a mapping with a missing key. -/
  | keyError (key : String)
  /-- Python `TypeError` from subscripting a non-mapping (e.g. `None`). -/
  | notSubscriptable
  /-- tenacity `RetryError` raised after exhausting attempts, wrapping the
  last attempt's exception. -/
  | retryExhausted (last : PErr)
  /-- Python `RuntimeError` from `asyncio.get_running_loop()` outside a loop. -/
  | noRunningLoop
deriving Repr, DecidableEq

/-- First-match lookup in a decoded JSON mapping (Python dict keys are
unique). -/
def jlookup : List (String × JVal) → String → Option JVal
  | [], _ => none
  | (k, v) :: rest, key => if k = key then some v else jlookup rest key

/-- Python subscription `v[key]`: `KeyError` on a missing key, `TypeError`
when `v` is not a mapping. -/
def JVal.getKey : JVal → String → Except PErr JVal
  | .obj fs, key =>
      match jlookup fs key with
      | some v => .ok v
      | none => .error (.keyError key)
  | _, _ => .error .notSubscriptable

/-! ## Retry combinators

`client.py` uses two different retry libraries with different parameters and
different units:
* tenacity (`@aretry(stop=stop_after_attempt(5), wait=wait_fixed(3))`) on
  `__apost`: 5 attempts, `wait_fixed` counts SECONDS (3 s = 3000 ms), any
  exception is retried, and exhausting the attempts raises a `RetryError`
  wrapping the last attempt's exception;
* retrying (`@retry(stop_max_attempt_number=3, wait_fixed=3)`) on `__rpost`:
  3 attempts, `wait_fixed` counts MILLISECONDS (3 ms), and after exhaustion
  the last exception is re-raised (`wrap_exception` defaults to false).

All waits are tallied in milliseconds. -/

/-- The tenacity retry loop over a stateful attempt body: `i` is the 0-based
attempt index, `rem` the retries still allowed.  A normal return stops the
loop; an exception waits `waitMs` ms and retries; exhaustion wraps the last
exception in `PErr.retryExhausted`.  Returns (result, final state, total wait
in ms). -/
def tenacityGo (waitMs : Nat) (body : Nat → σ → Except PErr α × σ) :
    Nat → σ → Nat → Except PErr α × σ × Nat
  | i, st, 0 =>
      match body i st with
      | (.ok v, st') => (.ok v, st', 0)
      | (.error e, st') => (.error (.retryExhausted e), st', 0)
  | i, st, rem + 1 =>
      match body i st with
      | (.ok v, st') => (.ok v, st', 0)
      | (.error _, st') =>
          let r := tenacityGo waitMs body (i + 1) st' rem
          (r.1, r.2.1, waitMs + r.2.2)

/-- tenacity `@aretry(stop=stop_after_attempt(5), wait=wait_fixed(3))`: 5
attempts total, 3000 ms between attempts. -/
def tenacityRetry5 (body : Nat → σ → Except PErr α × σ) (st : σ) :
    Except PErr α × σ × Nat :=
  tenacityGo 3000 body 0 st 4

/-- The retrying-library loop (stateless body): `i` is the 0-based attempt
index, `rem` the retries still allowed.  After exhaustion the last exception
is re-raised as-is.  Returns (result, total wait in ms). -/
def retryingGo (waitMs : Nat) (script : Nat → Except PErr α) :
    Nat → Nat → Except PErr α × Nat
  | i, 0 => (script i, 0)
  | i, rem + 1 =>
      match script i with
      | .ok v => (.ok v, 0)
      | .error _ =>
          let r := retryingGo waitMs script (i + 1) rem
          (r.1, waitMs + r.2)

/-- retrying `@retry(stop_max_attempt_number=3, wait_fixed=3)`: 3 attempts,
3 ms (not 3 s — the retrying library's `wait_fixed` is in milliseconds)
between attempts. -/
def retryingRetry3 (script : Nat → Except PErr α) : Except PErr α × Nat :=
  retryingGo 3 script 0 2

/-- Embedding of `Client.__rpost`: a blocking `requests.post(...).json()` under the
retrying decorator.  `script i` is the outcome of the `i`-th POST attempt:
a raised exception (transport or decode) or the decoded mapping. -/
def rpost (script : Nat → Except PErr Jobj) : Except PErr Jobj × Nat :=
  retryingRetry3 script

/-! ## Login state and `user_login` -/

/-- Modelled from the spec: `LoginUserInfo` comes from `typedefs.py`, which
is not among the sources.  Per §3 it is "mutable state holding at least a
`token` (string, initially absent) and any user metadata returned by login".
The constructor takes the decoded mapping; the token is its `"token"` entry
when that entry is a string. -/
structure LoginUserInfo where
  token : Option String
  userInfo : Jobj

/-- Python `LoginUserInfo(j)` for a decoded JSON value `j`. -/
def LoginUserInfo.ofJson (j : JVal) : LoginUserInfo :=
  { token := match j.getKey "token" with | .ok (.str t) => some t | _ => none,
    userInfo := match j with | .obj fs => fs | _ => [] }

/-- The authentication-relevant mutable state of a `Client`: the current
`__login_user`, plus a ghost counter of `user_login` invocations used to
state "triggers a re-login". -/
structure ClientState where
  loginUser : LoginUserInfo
  loginCalls : Nat

/-- Client state right after `__init__`: `LoginUserInfo({})`, token absent. -/
def initialClientState : ClientState :=
  { loginUser := LoginUserInfo.ofJson (.obj []), loginCalls := 0 }

/-- Embedding of `Client.user_login`: builds the signed unauthenticated request from
config, issues it through `__rpost` (outcomes scripted by `script`), and on
success replaces `__login_user` with
`LoginUserInfo(res_json['content']['userInfo'])`.  On failure (exhausted
retries, or a missing `content`/`userInfo` key in the response) the error
propagates and `loginUser` is unchanged.  Returns (result, state, total
backoff wait in ms). -/
def user_login (script : Nat → Except PErr Jobj) (st : ClientState) :
    Except PErr Unit × ClientState × Nat :=
  let st1 : ClientState := { st with loginCalls := st.loginCalls + 1 }
  let r := rpost script
  match r.1 with
  | .error e => (.error e, st1, r.2)
  | .ok j =>
      match (JVal.obj j).getKey "content" >>= fun c => c.getKey "userInfo" with
      | .error e => (.error e, st1, r.2)
      | .ok ui =>
          (.ok (), { st1 with loginUser := LoginUserInfo.ofJson ui }, r.2)

/-! ## Config, headers -/

/-- The fields of `config.toml` the client reads (§6): loaded once,
read-only. -/
structure Config where
  PostKey : String
  PostKeyVersion : String
  username : String
  password : String
  user_agent : String
  content_type : String
  host : String
  /-- Python `json.dumps(config['Headers']['appInfo'])`, kept serialized. -/
  appInfoSerialized : String

/-- The header mapping built by the `headers` property.  (The source fills
`ACCEPT_ENCODING` from `config['Headers']['content_type']`.) -/
structure HeadersMap where
  user_agent : String
  content_type : String
  host : String
  connection : String
  accept_encoding : String
  appInfo : String
  pa : String
  token : Option String
deriving Repr, DecidableEq

/-- The final header mapping for a given client state: the base headers from
config updated with the freshly computed `pa` and the current token. -/
def mkHeaders (cfg : Config) (nowMs : Nat) (uuid : String) (st : ClientState) :
    HeadersMap :=
  { user_agent := cfg.user_agent, content_type := cfg.content_type,
    host := cfg.host, connection := "close",
    accept_encoding := cfg.content_type, appInfo := cfg.appInfoSerialized,
    pa := pa nowMs uuid cfg.PostKey cfg.PostKeyVersion,
    token := st.loginUser.token }

/-- Embedding of `Client.headers`: builds the base header mapping; when no token is held,
runs `user_login()` synchronously first (its failure propagates); then adds
`pa` and `token`.  Returns (result, state, login backoff wait in ms). -/
def headersProp (cfg : Config) (nowMs : Nat) (uuid : String)
    (loginScript : Nat → Except PErr Jobj) (st : ClientState) :
    Except PErr HeadersMap × ClientState × Nat :=
  if st.loginUser.token = none then
    match user_login loginScript st with
    | (.error e, st1, w) => (.error e, st1, w)
    | (.ok _, st1, w) => (.ok (mkHeaders cfg nowMs uuid st1), st1, w)
  else (.ok (mkHeaders cfg nowMs uuid st), st, 0)

/-! ## The dispatcher `__apost` -/

/-- Outcome of one `session.post(...)`/`resp.json()` interaction. -/
inductive NetOutcome where
  /-- The POST or the JSON decode raised an exception. -/
  | raise (e : PErr)
  /-- The decoded JSON response mapping. -/
  | ok (j : Jobj)

/-- The two session-invalidation message strings (§6). -/
def invalidationMessages : List String := ["token解密失败", "非法授权"]

/-- Python `res_json.get('message') in ['token解密失败', '非法授权']`. -/
def isInvalidationResp (j : Jobj) : Bool :=
  match jlookup j "message" with
  | some (.str s) => invalidationMessages.contains s
  | _ => false

/-- One attempt of the `__apost` coroutine body: resolve headers (when the
caller passed `None`, `self.headers` is re-evaluated on every attempt, with a
fresh signature, and may itself trigger a login), perform the POST (outcome
scripted per attempt by `net`), and check the decoded response against the
invalidation strings: on a match run `user_login()` and fall off the end of
the function — Python returns `None`.  `loginScript n` scripts the `n`-th
login call's POST attempts.  The admission semaphore around the POST is
modelled separately (`SemStep`). -/
def apostAttempt (cfg : Config) (nowMs : Nat) (uuid : String)
    (hdrs : Option HeadersMap) (net : Nat → NetOutcome)
    (loginScript : Nat → Nat → Except PErr Jobj)
    (i : Nat) (st : ClientState) : Except PErr (Option Jobj) × ClientState :=
  let hr : Except PErr HeadersMap × ClientState :=
    match hdrs with
    | some h => (.ok h, st)
    | none =>
        let r := headersProp cfg nowMs uuid (loginScript st.loginCalls) st
        (r.1, r.2.1)
  match hr with
  | (.error e, st1) => (.error e, st1)
  | (.ok _, st1) =>
      match net i with
      | .raise e => (.error e, st1)
      | .ok j =>
          if isInvalidationResp j then
            match user_login (loginScript st1.loginCalls) st1 with
            | (.error e, st2, _) => (.error e, st2)
            | (.ok _, st2, _) => (.ok none, st2)
          else (.ok (some j), st1)

/-- Embedding of `Client.__apost` under its tenacity decorator: up to 5 attempts of
`apostAttempt`, 3000 ms between attempts.  tenacity retries only raised
exceptions — a normal return, including the `None` produced after the
invalidation branch, ends the call.  The url and request params are carried
for fidelity; the response is determined by the `net` script.  Returns
(result, final state, total retry wait in ms). -/
def apost (cfg : Config) (nowMs : Nat) (uuid : String)
    ( _url : String) ( _params : Jobj)
    (hdrs : Option HeadersMap) (net : Nat → NetOutcome)
    (loginScript : Nat → Nat → Except PErr Jobj) (st : ClientState) :
    Except PErr (Option Jobj) × ClientState × Nat :=
  tenacityRetry5 (apostAttempt cfg nowMs uuid hdrs net loginScript) st

/-! ## Endpoint methods -/

/-- Modelled from the spec: `StarBasicInfo` comes from `typedefs.py` (not
among the sources); per §3/§4.4 it is a record projected from the response's
`content`. -/
structure StarBasicInfo where
  content : JVal

/-- Modelled from the spec: `UserBasicInfo` from `typedefs.py`, a record
projected from the response's `content`. -/
structure UserBasicInfo where
  content : JVal

/-- Modelled from the spec: `BaseRoomInfo` from `typedefs.py`, a record
projected from the response's `content`. -/
structure BaseRoomInfo where
  content : JVal

/-- Python `res_json['content']` where `res_json` is what `__apost` returned:
subscripting `None` raises `TypeError`, a missing key raises `KeyError`. -/
def projectContent (r : Except PErr (Option Jobj)) : Except PErr JVal :=
  match r with
  | .error e => .error e
  | .ok none => .error .notSubscriptable
  | .ok (some j) => (JVal.obj j).getKey "content"

/-- Params built by `get_starBasicInfo`. -/
def starParams (id : Int) : Jobj :=
  [("lastTime", .num 0), ("memberId", .num id), ("limit", .num 20)]

/-- Params built by `get_userInfo`. -/
def userParams (id : Int) : Jobj := [("userId", .num id)]

/-- Params built by `get_roomInfo`. -/
def roomParams (id : Int) : Jobj := [("sourceId", .num id), ("type", .num 0)]

/-- Embedding of `Client.get_starBasicInfo`: dispatch through `__apost` (headers omitted)
and project `content` into the record. -/
def get_starBasicInfo (cfg : Config) (nowMs : Nat) (uuid : String)
    (net : Nat → NetOutcome) (loginScript : Nat → Nat → Except PErr Jobj)
    (st : ClientState) (id : Int) : Except PErr StarBasicInfo × ClientState :=
  let r := apost cfg nowMs uuid "/user/api/v1/user/star/archives"
    (starParams id) none net loginScript st
  (match projectContent r.1 with
   | .error e => .error e
   | .ok c => .ok ⟨c⟩, r.2.1)

/-- Embedding of `Client.get_userInfo`: dispatch through `__apost` (headers omitted) and
project `content` into the record. -/
def get_userInfo (cfg : Config) (nowMs : Nat) (uuid : String)
    (net : Nat → NetOutcome) (loginScript : Nat → Nat → Except PErr Jobj)
    (st : ClientState) (id : Int) : Except PErr UserBasicInfo × ClientState :=
  let r := apost cfg nowMs uuid "/user/api/v1/user/info/home"
    (userParams id) none net loginScript st
  (match projectContent r.1 with
   | .error e => .error e
   | .ok c => .ok ⟨c⟩, r.2.1)

/-- Embedding of `Client.get_roomInfo`: dispatch through `__apost` (headers omitted) and
project `content` into the record. -/
def get_roomInfo (cfg : Config) (nowMs : Nat) (uuid : String)
    (net : Nat → NetOutcome) (loginScript : Nat → Nat → Except PErr Jobj)
    (st : ClientState) (id : Int) : Except PErr BaseRoomInfo × ClientState :=
  let r := apost cfg nowMs uuid "/im/api/v1/im/room/info/type/source"
    (roomParams id) none net loginScript st
  (match projectContent r.1 with
   | .error e => .error e
   | .ok c => .ok ⟨c⟩, r.2.1)

/-! ## Resource lifecycle (`connector`/`session` properties, `__aexit__`) -/

/-- Resource-lifecycle state of a client: the cached `__connector` and
`__session` fields (resources identified by allocation number), plus ghost
counters of constructions and closes. -/
structure ResState where
  connector : Option Nat
  session : Option Nat
  connectorsMade : Nat
  sessionsMade : Nat
  connectorCloses : Nat
  sessionCloses : Nat
deriving Repr, DecidableEq

/-- Resource state right after `__init__`: nothing constructed. -/
def resInit : ResState := ⟨none, none, 0, 0, 0, 0⟩

/-- The `connector` property: constructs the `aiohttp.TCPConnector` on first
access and caches it in `__connector`. -/
def connectorGet (st : ResState) : Nat × ResState :=
  match st.connector with
  | some c => (c, st)
  | none =>
      (st.connectorsMade,
        { st with connector := some st.connectorsMade,
                  connectorsMade := st.connectorsMade + 1 })

/-- The `session` property: constructs the `aiohttp.ClientSession` over
`self.connector` on first access and caches it in `__session`. -/
def sessionGet (st : ResState) : Nat × ResState :=
  match st.session with
  | some s => (s, st)
  | none =>
      let r := connectorGet st
      (r.2.sessionsMade,
        { r.2 with session := some r.2.sessionsMade,
                   sessionsMade := r.2.sessionsMade + 1 })

/-- Embedding of `Client.__aexit__`: `if self.connector is not None: await
self.connector.close()`.  Both occurrences of `self.connector` are the
auto-constructing property, so the guard always sees a connector (creating
one when none was cached) and the close always runs; the session is never
closed. -/
def aexit (st : ResState) : ResState :=
  let r := connectorGet st
  { r.2 with connectorCloses := r.2.connectorCloses + 1 }

/-! ## The admission semaphore -/

/-- Capacity of the admission gate: `asyncio.Semaphore(10)`. -/
def semCapacity : Nat := 10

/-- Number of dispatch attempts currently inside the
`async with self.__sem:` block, i.e. outbound calls in flight. -/
structure SemState where
  inflight : Nat
deriving Repr, DecidableEq

/-- Transitions of `asyncio.Semaphore(semCapacity)` as used by `__apost`:
a caller enters the guarded block only when fewer than `semCapacity` callers
are inside (otherwise `acquire` suspends it until a slot frees); leaving the
block releases the slot. -/
inductive SemStep : SemState → SemState → Prop
  | enter {s : SemState} (h : s.inflight < semCapacity) :
      SemStep s ⟨s.inflight + 1⟩
  | leave {s : SemState} (h : 0 < s.inflight) : SemStep s ⟨s.inflight - 1⟩

/-- Semaphore states reachable from the idle initial state. -/
def SemReachable (s : SemState) : Prop :=
  Relation.ReflTransGen SemStep ⟨0⟩ s

/-! ## Constructor (`__init__`) -/

/-- A running asyncio event loop, identified abstractly. -/
structure EventLoop where
  id : Nat
deriving Repr, DecidableEq

/-- Python `asyncio.get_running_loop()`: returns the running loop; raises
`RuntimeError` when there is none. -/
def get_running_loop (running : Option EventLoop) : Except PErr EventLoop :=
  match running with
  | some l => .ok l
  | none => .error .noRunningLoop

/-- The fields a successfully constructed `Client` holds: `__config`,
`__connector`, `__session` start as `None` (lazy); `__login_user` is
`LoginUserInfo({})`; the semaphore has capacity 10; `__loop` is the captured
running loop. -/
structure ClientFields where
  config : Option Config
  loginUser : LoginUserInfo
  connector : Option Nat
  session : Option Nat
  semCap : Nat
  loop : EventLoop

/-- Embedding of `Client.__init__`: assigns the lazy fields and then eagerly captures the
running loop via `asyncio.get_running_loop()` — outside a running loop the
constructor raises and no client instance is produced. -/
def clientInit (running : Option EventLoop) : Except PErr ClientFields :=
  match get_running_loop running with
  | .error e => .error e
  | .ok l =>
      .ok { config := none, loginUser := LoginUserInfo.ofJson (.obj []),
            connector := none, session := none, semCap := semCapacity,
            loop := l }

/-! ## Concrete fixtures

Concrete configurations, states and network scripts used to evaluate the
embedded operations at specific inputs. -/

/-- A concrete config. -/
def cfgW : Config :=
  { PostKey := "k", PostKeyVersion := "v", username := "u", password := "p",
    user_agent := "ua", content_type := "ct", host := "h",
    appInfoSerialized := "ai" }

/-- A concrete caller-supplied header mapping. -/
def hdrW : HeadersMap :=
  { user_agent := "ua", content_type := "ct", host := "h",
    connection := "close", accept_encoding := "ct", appInfo := "ai",
    pa := "sig", token := some "tok" }

/-- A client state already holding a token. -/
def stW : ClientState :=
  { loginUser := { token := some "tok", userInfo := [] }, loginCalls := 0 }

/-- A good decoded response (no invalidation message, has `content`). -/
def okRespW : Jobj := [("message", .str "ok"), ("content", .obj [])]

/-- A decoded response with no `content` key. -/
def noContentRespW : Jobj := [("message", .str "ok")]

/-- The decoded `userInfo` mapping returned by a successful login. -/
def uiW : JVal := .obj [("token", .str "tok2")]

/-- A successful login response: `content.userInfo` carries a token. -/
def loginRespW : Jobj := [("content", .obj [("userInfo", uiW)])]

/-- Login network script: every login POST attempt succeeds. -/
def loginOkScriptW : Nat → Nat → Except PErr Jobj := fun _ _ => .ok loginRespW

/-- Single-login script whose every POST attempt succeeds. -/
def loginOkScript1W : Nat → Except PErr Jobj := fun _ => .ok loginRespW

/-- Login network script: every POST attempt times out. -/
def failLoginScriptW : Nat → Except PErr Jobj :=
  fun _ => .error (.transport "timeout")

/-- Dispatch network script: the first response carries the invalidation
message `"非法授权"`; every later attempt would return the real payload. -/
def invalidNetW : Nat → NetOutcome :=
  fun i => if i = 0 then .ok [("message", .str "非法授权")] else .ok okRespW

/-- The client state after one successful re-login from `stW`. -/
def stAfterLoginW : ClientState :=
  { loginUser := LoginUserInfo.ofJson uiW, loginCalls := 1 }

/-- Dispatch network script: attempt 0 raises a JSON-decode failure, later
attempts return the real payload. -/
def decodeNetW : Nat → NetOutcome :=
  fun i => if i = 0 then .raise (.decode "Expecting value") else .ok okRespW

/-- Dispatch network script: attempts 0 and 1 raise transport errors, later
attempts return the real payload. -/
def transpNetW : Nat → NetOutcome :=
  fun i => if i < 2 then .raise (.transport "conn") else .ok okRespW

/-- Dispatch network script: every attempt raises a JSON-decode failure. -/
def allDecodeNetW : Nat → NetOutcome := fun _ => .raise (.decode "bad json")

/-- Dispatch network script: every response lacks the `content` key. -/
def noContentNetW : Nat → NetOutcome := fun _ => .ok noContentRespW

/-- Login network script: the first POST attempt fails, the second
succeeds. -/
def mixedLoginScriptW : Nat → Except PErr Jobj :=
  fun i => if i = 0 then .error (.transport "refused") else .ok loginRespW

end Pocket

namespace Pocket

/-! ## Helper lemmas on the retry loops -/

/-- A tenacity attempt that returns normally ends the loop at once. -/
theorem tenacityGo_ok {σ α : Type} (waitMs : Nat)
    (body : Nat → σ → Except PErr α × σ) (i : Nat) (st : σ) (rem : Nat)
    (v : α) (st' : σ) (h : body i st = (.ok v, st')) :
    tenacityGo waitMs body i st rem = (.ok v, st', 0) := by
  cases rem <;> simp [tenacityGo, h]

/-- A tenacity attempt that raises, with retries remaining, waits and moves
to the next attempt. -/
theorem tenacityGo_err_step {σ α : Type} (waitMs : Nat)
    (body : Nat → σ → Except PErr α × σ) (i : Nat) (st : σ) (rem : Nat)
    (e : PErr) (st' : σ) (h : body i st = (.error e, st')) :
    tenacityGo waitMs body i st (rem + 1) =
      ((tenacityGo waitMs body (i + 1) st' rem).1,
       (tenacityGo waitMs body (i + 1) st' rem).2.1,
       waitMs + (tenacityGo waitMs body (i + 1) st' rem).2.2) := by
  simp [tenacityGo, h]

/-- A tenacity attempt that raises on the last allowed attempt surfaces a
`RetryError` wrapping that exception. -/
theorem tenacityGo_err_last {σ α : Type} (waitMs : Nat)
    (body : Nat → σ → Except PErr α × σ) (i : Nat) (st : σ)
    (e : PErr) (st' : σ) (h : body i st = (.error e, st')) :
    tenacityGo waitMs body i st 0 = (.error (.retryExhausted e), st', 0) := by
  simp [tenacityGo, h]

/-- Skipping `m` state-preserving failing attempts: the loop continues at
attempt `i + m` with `m` waits accumulated. -/
theorem tenacityGo_skip {σ α : Type} (waitMs : Nat)
    (body : Nat → σ → Except PErr α × σ) (st : σ) (es : Nat → PErr)
    (m : Nat) :
    ∀ i rem, m ≤ rem →
    (∀ kk, kk < m → body (i + kk) st = (.error (es (i + kk)), st)) →
    tenacityGo waitMs body i st rem =
      ((tenacityGo waitMs body (i + m) st (rem - m)).1,
       (tenacityGo waitMs body (i + m) st (rem - m)).2.1,
       waitMs * m + (tenacityGo waitMs body (i + m) st (rem - m)).2.2) := by
  induction m with
  | zero => intro i rem _ _; simp
  | succ n ih =>
      intro i rem hm hfail
      obtain ⟨rem', rfl⟩ : ∃ r', rem = r' + 1 := ⟨rem - 1, by omega⟩
      have h0 : body i st = (.error (es i), st) := by
        simpa using hfail 0 (Nat.succ_pos n)
      rw [tenacityGo_err_step waitMs body i st rem' (es i) st h0]
      have hfail' : ∀ kk, kk < n →
          body (i + 1 + kk) st = (.error (es (i + 1 + kk)), st) := by
        intro kk hk
        have := hfail (kk + 1) (by omega)
        rwa [show i + (kk + 1) = i + 1 + kk by omega] at this
      rw [ih (i + 1) rem' (by omega) hfail']
      have harith : i + 1 + n = i + (n + 1) := by omega
      have hrem : rem' - n = rem' + 1 - (n + 1) := by omega
      rw [harith, hrem]
      simp only [Prod.mk.injEq]
      exact ⟨trivial, trivial, by ring⟩

/-! ## Claim theorems -/

/-- C2: for every fixed millisecond timestamp, session identifier, `PostKey`
and `PostKeyVersion`, the `pa` computation is deterministic — it is a pure
function of exactly these four inputs, so equal inputs give equal output —
and equals `base64(timestamp + "," + sessionIdentity + "," +
md5(timestamp + sessionIdentity + PostKey) + "," + postKeyVersion)` with md5
the lowercase hex digest (`paSpecFormula`, written from the spec's words);
additionally checked against a golden vector computed with Python's
`hashlib`/`base64`. -/
theorem pa_matches_spec_formula :
    (∀ nowMs uuid key ver, pa nowMs uuid key ver =
        paSpecFormula nowMs uuid key ver) ∧
    pa 1700000000000 "abcdef0123456789abcdef0123456789" "SecretPostKey" "v1" =
      "MTcwMDAwMDAwMDAwMCxhYmNkZWYwMTIzNDU2Nzg5YWJjZGVmMDEyMzQ1Njc4OSxkMjdhMDgyMmM5MzcwNDNkOTRlZTFlYjQwODBjOGU5NCx2MQ==" :=
  ⟨fun _ _ _ _ => rfl, by rfl⟩

/-- C10: constructing a `Client` requires a running asyncio event loop:
invoked outside one, `__init__` propagates the `RuntimeError` of
`asyncio.get_running_loop()` and no client value is produced; inside one,
construction succeeds with the loop captured eagerly while pool, session and
config are still unset (lazy). -/
theorem clientInit_requires_running_loop :
    clientInit none = .error .noRunningLoop ∧
    ∀ l : EventLoop, ∃ c : ClientFields, clientInit (some l) = .ok c ∧
      c.config = none ∧ c.connector = none ∧ c.session = none ∧ c.loop = l :=
  ⟨rfl, fun _ => ⟨_, rfl, rfl, rfl, rfl, rfl⟩⟩

/-- C9: the admission gate of `__apost` (`asyncio.Semaphore(10)`) never
admits more than 10 concurrent outbound calls: in every reachable semaphore
state, the number of callers inside the `async with self.__sem:` block is at
most `semCapacity = 10`; an 11th caller cannot enter (the `enter` transition
requires `inflight < semCapacity`). -/
theorem sem_never_exceeds_capacity (s : SemState) (h : SemReachable s) :
    s.inflight ≤ semCapacity := by
  induction h with
  | refl => exact Nat.zero_le _
  | tail _ step ih =>
      cases step with
      | enter hlt => exact hlt
      | leave _ => exact le_trans (Nat.sub_le _ _) ih

/-- Witness for C9: the state with one in-flight call is reachable and
satisfies the bound. -/
theorem sem_never_exceeds_capacity_witness :
    SemReachable ⟨1⟩ ∧ (⟨1⟩ : SemState).inflight ≤ semCapacity := by
  have hr : SemReachable ⟨1⟩ :=
    Relation.ReflTransGen.single (SemStep.enter (by decide))
  exact ⟨hr, sem_never_exceeds_capacity ⟨1⟩ hr⟩

/-- C6 (code bug): teardown neither is acquisition-free when idle nor
releases both resources.  On a client that never acquired anything,
`__aexit__` CONSTRUCTS a connector — the `if self.connector is not None:`
guard calls the auto-creating `connector` property, so it can never see
`None` — and then closes it; and on a client whose session was created,
`__aexit__` closes only the connector, never the session.  (The lazy
at-most-once construction itself does hold: repeated property accesses
construct nothing new.) -/
theorem aexit_acquires_connector_and_never_closes_session :
    (aexit resInit).connectorsMade = 1 ∧
    (aexit resInit).connectorCloses = 1 ∧
    (aexit resInit).sessionCloses = 0 ∧
    (aexit (sessionGet resInit).2).sessionCloses = 0 ∧
    (aexit (sessionGet resInit).2).connectorCloses = 1 ∧
    (connectorGet (connectorGet resInit).2).2.connectorsMade = 1 ∧
    (sessionGet (sessionGet resInit).2).2.sessionsMade = 1 ∧
    (sessionGet (sessionGet resInit).2).2.connectorsMade = 1 :=
  ⟨rfl, rfl, rfl, rfl, rfl, rfl, rfl, rfl⟩

/-- C8: whenever the dispatched response lacks the `content` key, each of the
three endpoint methods fails with the distinct missing-key failure
(`KeyError 'content'`) rather than succeeding or returning a record; and
whenever the dispatcher produced no mapping at all (the `None` of the
invalidation branch), each fails with the `TypeError` of subscripting
`None`. -/
theorem endpoints_fail_without_content (cfg : Config) (nowMs : Nat)
    (uuid : String) (net net2 : Nat → NetOutcome)
    (ls : Nat → Nat → Except PErr Jobj) (st : ClientState)
    (idA idB idC : Int) (r : Jobj)
    (hok : (apost cfg nowMs uuid "/user/api/v1/user/star/archives"
        (starParams idA) none net ls st).1 = Except.ok (some r))
    (hmiss : jlookup r "content" = none)
    (hnone : (apost cfg nowMs uuid "/user/api/v1/user/star/archives"
        (starParams idA) none net2 ls st).1 = Except.ok none) :
    (get_starBasicInfo cfg nowMs uuid net ls st idA).1 =
        Except.error (PErr.keyError "content") ∧
    (get_userInfo cfg nowMs uuid net ls st idB).1 =
        Except.error (PErr.keyError "content") ∧
    (get_roomInfo cfg nowMs uuid net ls st idC).1 =
        Except.error (PErr.keyError "content") ∧
    (get_starBasicInfo cfg nowMs uuid net2 ls st idA).1 =
        Except.error PErr.notSubscriptable ∧
    (get_userInfo cfg nowMs uuid net2 ls st idB).1 =
        Except.error PErr.notSubscriptable ∧
    (get_roomInfo cfg nowMs uuid net2 ls st idC).1 =
        Except.error PErr.notSubscriptable := by
  have hmain : projectContent (apost cfg nowMs uuid
      "/user/api/v1/user/star/archives" (starParams idA) none net ls st).1 =
      .error (.keyError "content") := by
    rw [hok]; simp [projectContent, JVal.getKey, hmiss]
  have hmainB : projectContent (apost cfg nowMs uuid
      "/user/api/v1/user/info/home" (userParams idB) none net ls st).1 =
      .error (.keyError "content") := hmain
  have hmainC : projectContent (apost cfg nowMs uuid
      "/im/api/v1/im/room/info/type/source" (roomParams idC) none net ls
      st).1 = .error (.keyError "content") := hmain
  have hn : projectContent (apost cfg nowMs uuid
      "/user/api/v1/user/star/archives" (starParams idA) none net2 ls st).1 =
      .error .notSubscriptable := by
    rw [hnone]; rfl
  have hnB : projectContent (apost cfg nowMs uuid
      "/user/api/v1/user/info/home" (userParams idB) none net2 ls st).1 =
      .error .notSubscriptable := hn
  have hnC : projectContent (apost cfg nowMs uuid
      "/im/api/v1/im/room/info/type/source" (roomParams idC) none net2 ls
      st).1 = .error .notSubscriptable := hn
  refine ⟨?_, ?_, ?_, ?_, ?_, ?_⟩
  · simp [get_starBasicInfo, hmain]
  · simp [get_userInfo, hmainB]
  · simp [get_roomInfo, hmainC]
  · simp [get_starBasicInfo, hn]
  · simp [get_userInfo, hnB]
  · simp [get_roomInfo, hnC]

/-- Witness for C8: a concrete response without `content` makes all three
endpoint methods fail with `KeyError 'content'`, and the `None` produced by
the invalidation branch makes them fail with the `TypeError`. -/
theorem endpoints_fail_without_content_witness :
    jlookup noContentRespW "content" = none ∧
    (get_starBasicInfo cfgW 0 "" noContentNetW loginOkScriptW stW 1).1 =
        Except.error (PErr.keyError "content") ∧
    (get_userInfo cfgW 0 "" noContentNetW loginOkScriptW stW 2).1 =
        Except.error (PErr.keyError "content") ∧
    (get_roomInfo cfgW 0 "" noContentNetW loginOkScriptW stW 3).1 =
        Except.error (PErr.keyError "content") ∧
    (get_starBasicInfo cfgW 0 "" invalidNetW loginOkScriptW stW 1).1 =
        Except.error PErr.notSubscriptable := by
  have h := endpoints_fail_without_content cfgW 0 "" noContentNetW invalidNetW
    loginOkScriptW stW 1 2 3 noContentRespW (by rfl) (by rfl) (by rfl)
  exact ⟨rfl, h.1, h.2.1, h.2.2.1, h.2.2.2.1⟩

/-- C7: no authenticated request is built while the token is absent.  When
the `headers` property is evaluated with no token held, `user_login()` runs
synchronously first (the login-call counter increments) and — the login POST
succeeding with a `userInfo` carrying a string token — the returned mapping
holds the freshly computed `pa` signature and that non-absent token.  When a
token is already held, the mapping holds it and no login runs. -/
theorem headers_login_precondition (cfg : Config) (nowMs : Nat)
    (uuid : String) (ls : Nat → Except PErr Jobj) (st st2 : ClientState)
    (j : Jobj) (ui : JVal) (t t2 : String)
    (htok : st.loginUser.token = none)
    (hnet : ls 0 = .ok j)
    (hui : ((JVal.obj j).getKey "content" >>= fun c => c.getKey "userInfo") =
        .ok ui)
    (ht : ui.getKey "token" = .ok (.str t))
    (htok2 : st2.loginUser.token = some t2) :
    (headersProp cfg nowMs uuid ls st).1 = .ok
      { user_agent := cfg.user_agent, content_type := cfg.content_type,
        host := cfg.host, connection := "close",
        accept_encoding := cfg.content_type,
        appInfo := cfg.appInfoSerialized,
        pa := pa nowMs uuid cfg.PostKey cfg.PostKeyVersion,
        token := some t } ∧
    (headersProp cfg nowMs uuid ls st).2.1.loginCalls = st.loginCalls + 1 ∧
    (headersProp cfg nowMs uuid ls st2).1 =
        .ok (mkHeaders cfg nowMs uuid st2) ∧
    (mkHeaders cfg nowMs uuid st2).token = some t2 ∧
    (headersProp cfg nowMs uuid ls st2).2.1 = st2 := by
  have hu : user_login ls st =
      (.ok (), { loginUser := LoginUserInfo.ofJson ui,
                 loginCalls := st.loginCalls + 1 }, 0) := by
    simp [user_login, rpost, retryingRetry3, retryingGo, hnet, hui]
  refine ⟨?_, ?_, ?_, ?_, ?_⟩
  · simp [headersProp, htok, hu, mkHeaders, LoginUserInfo.ofJson, ht]
  · simp [headersProp, htok, hu]
  · simp [headersProp, htok2]
  · simp [mkHeaders, htok2]
  · simp [headersProp, htok2]

/-- Witness for C7: from the tokenless initial state, building headers with a
succeeding login script yields the mapping with the fresh signature and the
token `"tok2"` delivered by the login response, after exactly one login. -/
theorem headers_login_precondition_witness :
    initialClientState.loginUser.token = none ∧
    (headersProp cfgW 0 "" loginOkScript1W initialClientState).1 = .ok
      { user_agent := "ua", content_type := "ct", host := "h",
        connection := "close", accept_encoding := "ct", appInfo := "ai",
        pa := pa 0 "" "k" "v", token := some "tok2" } ∧
    (headersProp cfgW 0 "" loginOkScript1W initialClientState).2.1.loginCalls
        = 1 := by
  have h := headers_login_precondition cfgW 0 "" loginOkScript1W
    initialClientState stW loginRespW uiW "tok2" "tok" rfl rfl rfl rfl rfl
  exact ⟨rfl, h.1, h.2.1⟩

/-- C5 counterexample: the login backoff is 3 milliseconds, not the claimed
fixed 3 seconds.  With every POST attempt failing, `user_login` waits twice
between its 3 attempts for a total of 6 ms; a 3-second backoff would make
that total 6000 ms.  (The source passes `wait_fixed=3` to the `retrying`
library, whose `wait_fixed` unit is milliseconds.) -/
theorem user_login_backoff_counterexample :
    (user_login failLoginScriptW initialClientState).2.2 = 6 ∧
    (user_login failLoginScriptW initialClientState).2.2 ≠ 2 * 3000 :=
  ⟨rfl, by decide⟩

/-- C5 (amended): the login POST is retried up to 3 attempts with a fixed
3-millisecond backoff between attempts.  If all 3 attempts fail, the last
error surfaces and the stored login-user state (hence the absent token) is
unchanged; on a successful attempt, the login-user state is replaced with the
token and metadata returned in `content.userInfo`. -/
theorem user_login_retry_behaviour (ls : Nat → Except PErr Jobj)
    (st : ClientState) (e0 e1 e2 : PErr) (j : Jobj) (ui : JVal) :
    (ls 0 = .error e0 → ls 1 = .error e1 → ls 2 = .error e2 →
      (user_login ls st).1 = .error e2 ∧
      (user_login ls st).2.1.loginUser = st.loginUser ∧
      (user_login ls st).2.2 = 2 * 3) ∧
    (ls 0 = .error e0 → ls 1 = .ok j →
      ((JVal.obj j).getKey "content" >>= fun c => c.getKey "userInfo") =
          .ok ui →
      (user_login ls st).1 = .ok () ∧
      (user_login ls st).2.1.loginUser = LoginUserInfo.ofJson ui ∧
      (user_login ls st).2.2 = 3) := by
  constructor
  · intro h0 h1 h2
    simp [user_login, rpost, retryingRetry3, retryingGo, h0, h1, h2]
  · intro h0 h1 hui
    simp [user_login, rpost, retryingRetry3, retryingGo, h0, h1, hui]

/-- Witness for C5: with all three attempts timing out, the login fails with
the last timeout, leaves the login-user state unchanged and waited 6 ms in
total; with a failure then a success, the second attempt's token is
installed after one 3 ms wait. -/
theorem user_login_retry_behaviour_witness :
    (user_login failLoginScriptW initialClientState).1 =
        .error (.transport "timeout") ∧
    (user_login failLoginScriptW initialClientState).2.1.loginUser =
        initialClientState.loginUser ∧
    (user_login failLoginScriptW initialClientState).2.2 = 2 * 3 ∧
    (user_login mixedLoginScriptW initialClientState).1 = .ok () ∧
    (user_login mixedLoginScriptW initialClientState).2.1.loginUser =
        LoginUserInfo.ofJson uiW ∧
    (user_login mixedLoginScriptW initialClientState).2.2 = 3 := by
  have h1 := (user_login_retry_behaviour failLoginScriptW initialClientState
    (.transport "timeout") (.transport "timeout") (.transport "timeout")
    [] uiW).1 rfl rfl rfl
  have h2 := (user_login_retry_behaviour mixedLoginScriptW initialClientState
    (.transport "refused") (.transport "refused") (.transport "refused")
    loginRespW uiW).2 rfl rfl rfl
  exact ⟨h1.1, h1.2.1, h1.2.2, h2.1, h2.2.1, h2.2.2⟩

/-- With caller-supplied headers, a raising network attempt makes the
`__apost` body raise that exception, leaving the client state unchanged. -/
theorem apostAttempt_hdr_raise (cfg : Config) (nowMs : Nat) (uuid : String)
    (h : HeadersMap) (net : Nat → NetOutcome)
    (ls : Nat → Nat → Except PErr Jobj) (i : Nat) (st : ClientState)
    (e : PErr) (hnet : net i = .raise e) :
    apostAttempt cfg nowMs uuid (some h) net ls i st = (.error e, st) := by
  simp [apostAttempt, hnet]

/-- With caller-supplied headers, a non-invalidated decoded response makes
the `__apost` body return it, leaving the client state unchanged. -/
theorem apostAttempt_hdr_ok (cfg : Config) (nowMs : Nat) (uuid : String)
    (h : HeadersMap) (net : Nat → NetOutcome)
    (ls : Nat → Nat → Except PErr Jobj) (i : Nat) (st : ClientState)
    (r : Jobj) (hnet : net i = .ok r)
    (hinv : isInvalidationResp r = false) :
    apostAttempt cfg nowMs uuid (some h) net ls i st = (.ok (some r), st) := by
  simp [apostAttempt, hnet, hinv]

/-- C3: transport failures are retried up to 5 attempts with a fixed
3-second (3000 ms) delay between attempts.  If the first `k < 5` attempts
raise transport errors and attempt `k` succeeds with a non-invalidated
response `r`, dispatch returns `r` having waited 3000 ms before each retry;
if all 5 attempts raise transport errors, dispatch surfaces the last
transport error to the caller (inside tenacity's `RetryError`). -/
theorem apost_transport_retry (cfg : Config) (nowMs : Nat) (uuid : String)
    (url : String) (params : Jobj) (h : HeadersMap) (net : Nat → NetOutcome)
    (ls : Nat → Nat → Except PErr Jobj) (st : ClientState)
    (es : Nat → String) (k : Nat) (r : Jobj) :
    (k < 5 → (∀ i, i < k → net i = .raise (.transport (es i))) →
      net k = .ok r → isInvalidationResp r = false →
      apost cfg nowMs uuid url params (some h) net ls st =
        (.ok (some r), st, 3000 * k)) ∧
    ((∀ i, i < 5 → net i = .raise (.transport (es i))) →
      apost cfg nowMs uuid url params (some h) net ls st =
        (.error (.retryExhausted (.transport (es 4))), st, 3000 * 4)) := by
  constructor
  · intro hk hfail hok hinv
    have hskip : ∀ kk, kk < k →
        apostAttempt cfg nowMs uuid (some h) net ls (0 + kk) st =
          (.error (.transport (es (0 + kk))), st) := by
      intro kk hkk
      simpa using apostAttempt_hdr_raise cfg nowMs uuid h net ls kk st
        (.transport (es kk)) (hfail kk hkk)
    have hokb : apostAttempt cfg nowMs uuid (some h) net ls (0 + k) st =
        (.ok (some r), st) := by
      simpa using apostAttempt_hdr_ok cfg nowMs uuid h net ls k st r hok hinv
    show tenacityGo 3000 (apostAttempt cfg nowMs uuid (some h) net ls)
      0 st 4 = _
    rw [tenacityGo_skip 3000 _ st (fun i => .transport (es i)) k 0 4
      (by omega) hskip]
    rw [tenacityGo_ok 3000 _ (0 + k) st (4 - k) (some r) st hokb]
    simp
  · intro hfail
    have hskip : ∀ kk, kk < 4 →
        apostAttempt cfg nowMs uuid (some h) net ls (0 + kk) st =
          (.error (.transport (es (0 + kk))), st) := by
      intro kk hkk
      simpa using apostAttempt_hdr_raise cfg nowMs uuid h net ls kk st
        (.transport (es kk)) (hfail kk (by omega))
    have hlast : apostAttempt cfg nowMs uuid (some h) net ls (0 + 4) st =
        (.error (.transport (es (0 + 4))), st) := by
      simpa using apostAttempt_hdr_raise cfg nowMs uuid h net ls 4 st
        (.transport (es 4)) (hfail 4 (by omega))
    show tenacityGo 3000 (apostAttempt cfg nowMs uuid (some h) net ls)
      0 st 4 = _
    rw [tenacityGo_skip 3000 _ st (fun i => .transport (es i)) 4 0 4
      (by omega) hskip]
    rw [tenacityGo_err_last 3000 _ (0 + 4) st (.transport (es (0 + 4))) st
      hlast]
    simp

/-- Witness for C3: with transport failures on attempts 0 and 1 and the real
payload on attempt 2, dispatch returns the payload after two 3000 ms waits. -/
theorem apost_transport_retry_witness :
    (∀ i, i < 2 → transpNetW i = .raise (.transport "conn")) ∧
    transpNetW 2 = .ok okRespW ∧
    apost cfgW 0 "" "/u" [] (some hdrW) transpNetW loginOkScriptW stW =
      (.ok (some okRespW), stW, 3000 * 2) := by
  have h := (apost_transport_retry cfgW 0 "" "/u" [] hdrW transpNetW
    loginOkScriptW stW (fun _ => "conn") 2 okRespW).1 (by omega)
    (fun i hi => by interval_cases i <;> rfl) rfl rfl
  exact ⟨fun i hi => by interval_cases i <;> rfl, rfl, h⟩

/-- C4 counterexample: a JSON-decode failure is retried, not surfaced
immediately.  With attempt 0 raising a decode error and attempt 1 returning
the real payload, `__apost` returns the payload after one 3000 ms retry
wait; the caller never sees the decode error, contradicting the claim's
"surfaced ... immediately on the first attempt and ... not retried" (the
tenacity decorator retries every exception, decode failures included). -/
theorem apost_decode_retried_counterexample :
    apost cfgW 0 "" "/u" [] (some hdrW) decodeNetW loginOkScriptW stW =
      (.ok (some okRespW), stW, 3000) ∧
    (apost cfgW 0 "" "/u" [] (some hdrW) decodeNetW loginOkScriptW stW).1 ≠
      Except.error (PErr.decode "Expecting value") := by
  refine ⟨rfl, ?_⟩
  have h1 : (apost cfgW 0 "" "/u" [] (some hdrW) decodeNetW loginOkScriptW
      stW).1 = Except.ok (some okRespW) := rfl
  rw [h1]
  simp

/-- C4 (amended): JSON-decode failures on the dispatch path are retried
exactly like connection/timeout failures — up to 5 attempts, 3000 ms apart —
rather than surfaced immediately; only exhausting all 5 attempts surfaces
the last decode error (inside tenacity's `RetryError`). -/
theorem apost_decode_retry (cfg : Config) (nowMs : Nat) (uuid : String)
    (url : String) (params : Jobj) (h : HeadersMap) (net : Nat → NetOutcome)
    (ls : Nat → Nat → Except PErr Jobj) (st : ClientState)
    (es : Nat → String) (k : Nat) (r : Jobj) :
    (k < 5 → (∀ i, i < k → net i = .raise (.decode (es i))) →
      net k = .ok r → isInvalidationResp r = false →
      apost cfg nowMs uuid url params (some h) net ls st =
        (.ok (some r), st, 3000 * k)) ∧
    ((∀ i, i < 5 → net i = .raise (.decode (es i))) →
      apost cfg nowMs uuid url params (some h) net ls st =
        (.error (.retryExhausted (.decode (es 4))), st, 3000 * 4)) := by
  constructor
  · intro hk hfail hok hinv
    have hskip : ∀ kk, kk < k →
        apostAttempt cfg nowMs uuid (some h) net ls (0 + kk) st =
          (.error (.decode (es (0 + kk))), st) := by
      intro kk hkk
      simpa using apostAttempt_hdr_raise cfg nowMs uuid h net ls kk st
        (.decode (es kk)) (hfail kk hkk)
    have hokb : apostAttempt cfg nowMs uuid (some h) net ls (0 + k) st =
        (.ok (some r), st) := by
      simpa using apostAttempt_hdr_ok cfg nowMs uuid h net ls k st r hok hinv
    show tenacityGo 3000 (apostAttempt cfg nowMs uuid (some h) net ls)
      0 st 4 = _
    rw [tenacityGo_skip 3000 _ st (fun i => .decode (es i)) k 0 4
      (by omega) hskip]
    rw [tenacityGo_ok 3000 _ (0 + k) st (4 - k) (some r) st hokb]
    simp
  · intro hfail
    have hskip : ∀ kk, kk < 4 →
        apostAttempt cfg nowMs uuid (some h) net ls (0 + kk) st =
          (.error (.decode (es (0 + kk))), st) := by
      intro kk hkk
      simpa using apostAttempt_hdr_raise cfg nowMs uuid h net ls kk st
        (.decode (es kk)) (hfail kk (by omega))
    have hlast : apostAttempt cfg nowMs uuid (some h) net ls (0 + 4) st =
        (.error (.decode (es (0 + 4))), st) := by
      simpa using apostAttempt_hdr_raise cfg nowMs uuid h net ls 4 st
        (.decode (es 4)) (hfail 4 (by omega))
    show tenacityGo 3000 (apostAttempt cfg nowMs uuid (some h) net ls)
      0 st 4 = _
    rw [tenacityGo_skip 3000 _ st (fun i => .decode (es i)) 4 0 4
      (by omega) hskip]
    rw [tenacityGo_err_last 3000 _ (0 + 4) st (.decode (es (0 + 4))) st
      hlast]
    simp

/-- Witness for C4 (amended): one decode failure then the payload returns
the payload after one wait; decode failures on all 5 attempts surface the
wrapped last decode error after four waits. -/
theorem apost_decode_retry_witness :
    decodeNetW 0 = .raise (.decode "Expecting value") ∧
    apost cfgW 0 "" "/u" [] (some hdrW) decodeNetW loginOkScriptW stW =
      (.ok (some okRespW), stW, 3000 * 1) ∧
    (∀ i, i < 5 → allDecodeNetW i = .raise (.decode "bad json")) ∧
    apost cfgW 0 "" "/u" [] (some hdrW) allDecodeNetW loginOkScriptW stW =
      (.error (.retryExhausted (.decode "bad json")), stW, 3000 * 4) := by
  have h1 := (apost_decode_retry cfgW 0 "" "/u" [] hdrW decodeNetW
    loginOkScriptW stW (fun _ => "Expecting value") 1 okRespW).1 (by omega)
    (fun i hi => by interval_cases i; rfl) rfl rfl
  have h2 := (apost_decode_retry cfgW 0 "" "/u" [] hdrW allDecodeNetW
    loginOkScriptW stW (fun _ => "bad json") 0 okRespW).2 (fun _ _ => rfl)
  exact ⟨rfl, h1, fun _ _ => rfl, h2⟩

/-- C1 (code bug): on a response whose `message` is the invalidation string
`"非法授权"`, `__apost` does trigger `user_login()` (the ghost login counter
increments and the token delivered by the re-login is installed), but the
invalidation branch then falls off the end of the function body: Python
returns `None`, which tenacity treats as a normal return and does not retry.
The dispatch call therefore ends on the FIRST attempt (no retry wait) with
an empty `None` result, even though the re-login succeeded and the very next
attempt (`net 1`) carried the real, non-invalidated payload — contradicting
the claim's "after a successful re-login, a retried attempt returns the real
payload" (the intent stated in §4.3/§7 and flagged as dropped in §9). -/
theorem apost_invalidation_returns_none :
    apost cfgW 0 "" "/u" [] (some hdrW) invalidNetW loginOkScriptW stW =
      (.ok none, stAfterLoginW, 0) ∧
    stAfterLoginW.loginCalls = stW.loginCalls + 1 ∧
    stAfterLoginW.loginUser.token = some "tok2" ∧
    invalidNetW 1 = .ok okRespW ∧
    isInvalidationResp okRespW = false :=
  ⟨rfl, rfl, rfl, rfl, rfl⟩

end Pocket
